import Mathlib

/-!
Verification of the deliberate-sessions library (Session.ts, stores/CookieStore.ts).

The embedding is shallow:
* JS runtime values stored in a session are the inductive `JsValue`
  (strings, numbers, booleans, null, undefined, nested string-keyed objects);
  numbers are modelled as integers.
* A JS object used as a record is the key/value sequence `JsObj`, read and
  written with the semantics of property access, `in`, assignment and
  `delete` (`objGet`, `objHas`, `objSet`, `objDelete`).
* `SessionData` is the TypeScript interface of the same name: the four
  reserved fields at their declared types plus the `[key: string]: unknown`
  extras.
* Clock readings (`Date.now()`) are integer epoch milliseconds; all readings
  within one orchestrator call are modelled by a single parameter `now`.
  ISO-8601 rendering (`toISOString`) is modelled by an injective textual
  encoding `isoOf` of the epoch milliseconds; the code never inspects the
  format, it only reads timestamps back via `new Date(s).getTime()`,
  modelled by `getTime` with `getTime (isoOf t) = some t` (`none` models the
  `NaN` result on a malformed string).
* The externally supplied identifier generator (`nanoid`) and the clock enter
  the orchestrator functions as explicit parameters `freshID` and `now`.
* The cookie accessor supplied by the host framework is a finite mapping from
  cookie names to string values (`CookieJar`).
-/

mutual

/-- A JS runtime value as storable in session data: strings, numbers
(modelled as integers), booleans, null, undefined, and nested string-keyed
objects. -/
inductive JsValue where
  | str : String → JsValue
  | num : Int → JsValue
  | jsBool : Bool → JsValue
  | jsNull : JsValue
  | undef : JsValue
  | obj : JsObj → JsValue
deriving DecidableEq

/-- A JS object used as a string-keyed record: a finite sequence of
properties in insertion order. -/
inductive JsObj where
  | nil : JsObj
  | cons : String → JsValue → JsObj → JsObj
deriving DecidableEq

end

/-- Property read `o[k]`: the stored value, or `undefined` when absent. -/
def objGet : JsObj → String → JsValue
  | .nil, _ => JsValue.undef
  | .cons k' v r, k => if k' = k then v else objGet r k

/-- The JS `k in o` check: true exactly when the property exists, whatever
its value (also when the stored value is `undefined`). -/
def objHas : JsObj → String → Bool
  | .nil, _ => false
  | .cons k' _ r, k => k' = k || objHas r k

/-- Property assignment `o[k] = v`: overwrite the existing property in
place, or add the property at the end. -/
def objSet : JsObj → String → JsValue → JsObj
  | .nil, k, v => .cons k v .nil
  | .cons k' v' r, k, v =>
    if k' = k then .cons k v r else .cons k' v' (objSet r k v)

/-- The JS `delete o[k]` operation: remove the property. -/
def objDelete : JsObj → String → JsObj
  | .nil, _ => .nil
  | .cons k' v r, k =>
    if k' = k then objDelete r k else .cons k' v (objDelete r k)

/-- The persisted session payload, interface `SessionData` of Session.ts:
`_flash` (one-time values), `_accessed` and `_expire` (ISO timestamp strings
or null, here `Option String` over the `isoOf` encoding), `_delete`, plus
the `[key: string]: unknown` extra entries in `rest`. The reserved fields
are kept at their declared TypeScript types; runtime assignments that would
violate those declared types (and `delete` of a required field) are outside
the model. -/
structure SessionData where
  _flash : JsObj
  _accessed : Option String
  _expire : Option String
  _delete : Bool
  rest : JsObj
deriving DecidableEq

/-- `new Date(t).toISOString()`: injective textual encoding of epoch ms. -/
def isoOf (t : Int) : String :=
  toString t

/-- Decimal digit-string parser used by `getTime`. -/
def natOfDigits (cs : List Char) : Option Nat :=
  cs.foldl (fun acc c =>
    match acc with
    | none => none
    | some n => if c.isDigit then some (n * 10 + (c.toNat - 48)) else none)
    (some 0)

/-- `new Date(s).getTime()`: recover the epoch ms from the `isoOf` encoding;
`none` models the `NaN` result on a string that is not a rendered
timestamp. -/
def getTime (s : String) : Option Int :=
  match s.data with
  | [] => none
  | '-' :: rest =>
    if rest = [] then none else (natOfDigits rest).map (fun n => -(n : Int))
  | cs => (natOfDigits cs).map (fun n => (n : Int))

/-- The in-memory `Session` entity: an identifier (empty string when the
backing store is cookie-embedded) and its exclusively owned data. -/
structure Session where
  sid : String
  data : SessionData
deriving DecidableEq

/-- The JS check `value === null || value === undefined` used by `set`. -/
def isNullish : JsValue → Bool
  | .jsNull => true
  | .undef => true
  | _ => false

/-- The `key in this.data` check: the four reserved properties are always
present, the extras by lookup. -/
def dataHasKey (d : SessionData) (k : String) : Bool :=
  k = "_flash" || k = "_accessed" || k = "_expire" || k = "_delete" ||
    objHas d.rest k

/-- Reading `this.data[key]` for a key present in the main mapping. -/
def dataGetMain (d : SessionData) (k : String) : JsValue :=
  if k = "_flash" then JsValue.obj d._flash
  else if k = "_accessed" then
    match d._accessed with
    | some s => JsValue.str s
    | none => JsValue.jsNull
  else if k = "_expire" then
    match d._expire with
    | some s => JsValue.str s
    | none => JsValue.jsNull
  else if k = "_delete" then JsValue.jsBool d._delete
  else objGet d.rest k

/-- `Session.get`: the main mapping wins when the key is present there;
otherwise the flash entry is read and consumed (deleted before returning).
Returns the value together with the updated data. -/
def dataGet (d : SessionData) (k : String) : JsValue × SessionData :=
  if dataHasKey d k then (dataGetMain d k, d)
  else (objGet d._flash k, { d with _flash := objDelete d._flash k })

/-- `Session.set`: a null or undefined value deletes the key from the main
mapping; any other value assigns it. Reserved fields keep their declared
interface types (see `SessionData`). -/
def dataSet (d : SessionData) (k : String) (v : JsValue) : SessionData :=
  if isNullish v then
    if k = "_accessed" then { d with _accessed := none }
    else if k = "_expire" then { d with _expire := none }
    else if k = "_flash" || k = "_delete" then d
    else { d with rest := objDelete d.rest k }
  else
    if k = "_flash" then
      match v with
      | .obj o => { d with _flash := o }
      | _ => d
    else if k = "_accessed" then
      match v with
      | .str s => { d with _accessed := some s }
      | _ => d
    else if k = "_expire" then
      match v with
      | .str s => { d with _expire := some s }
      | _ => d
    else if k = "_delete" then
      match v with
      | .jsBool b => { d with _delete := b }
      | _ => d
    else { d with rest := objSet d.rest k v }

/-- `Session.flash`: write into the `_flash` sub-mapping, overwriting any
prior value. -/
def dataFlash (d : SessionData) (k : String) (v : JsValue) : SessionData :=
  { d with _flash := objSet d._flash k v }

/-- `Session.has`: key in the main mapping or in `_flash`; read-only. -/
def dataHas (d : SessionData) (k : String) : Bool :=
  dataHasKey d k || objHas d._flash k

example : (dataGet (dataFlash ⟨.nil, none, none, false, .nil⟩ "m" (.str "hi")) "m").1
    = JsValue.str "hi" := by decide

/-- `Session.sessionValid`:
`sessionData._expire == null || Date.now() < new Date(sessionData._expire).getTime()`.
A string that parses to no timestamp gives `NaN`, and `now < NaN` is false. -/
def sessionValid (now : Int) (d : SessionData) : Bool :=
  match d._expire with
  | none => true
  | some s =>
    match getTime s with
    | some t => now < t
    | none => false

/-- The `_expire` value written by `reupSession` and by `createSession`:
`expiration ? new Date(Date.now() + expiration * 1000).toISOString() : null`.
JS truthiness makes both `null`/`undefined` and `0` take the null branch. -/
def reupExpire (now : Int) : Option Int → Option String
  | some n => if n = 0 then none else some (isoOf (now + n * 1000))
  | none => none

/-- `Session.reupSession`: overwrite `_expire` with the renewed window,
regardless of the loaded value. -/
def reupSession (now : Int) (expiration : Option Int) (d : SessionData) :
    SessionData :=
  { d with _expire := reupExpire now expiration }

/-- The fresh default payload built by `Session.createSession` when no
`defaultData` is supplied. -/
def defaultData (now : Int) (expiration : Option Int) : SessionData :=
  { _flash := .nil
    _accessed := some (isoOf now)
    _expire := reupExpire now expiration
    _delete := false
    rest := .nil }

/-- A keyed backing store: finite mapping from identifier to `SessionData`.
Modelled from the spec: the `Store` interface (create/get/persist/delete by
identifier, §4.2) and its in-memory reference implementation
(MemoryStore.ts) are not among the provided sources; the mapping semantics
below follows the spec's contract — `createSession`/`persistSessionData`
fully replace the value stored under the identifier, `getSessionById`
returns the stored data or a not-found signal, `deleteSession` removes the
entry and is idempotent. -/
abbrev KeyedStore : Type :=
  List (String × SessionData)

/-- `store.getSessionById(id)`. -/
def storeGet : KeyedStore → String → Option SessionData
  | [], _ => none
  | p :: st, sid => if p.1 = sid then some p.2 else storeGet st sid

/-- `store.deleteSession(id)`: remove the entry, idempotent. -/
def storeDelete : KeyedStore → String → KeyedStore
  | [], _ => []
  | p :: st, sid => if p.1 = sid then storeDelete st sid else p :: storeDelete st sid

/-- `store.createSession(id, data)` / `store.persistSessionData(id, data)`:
fully replace the value stored under `id`. -/
def storeSet (st : KeyedStore) (sid : String) (d : SessionData) : KeyedStore :=
  (sid, d) :: storeDelete st sid

/-- The host framework's cookie accessor: a finite mapping from cookie names
to string values, with `get`/`set`/`delete` on named values. -/
abbrev CookieJar : Type :=
  List (String × String)

/-- `cookies.get(name, options)`. -/
def cookieGet : CookieJar → String → Option String
  | [], _ => none
  | p :: jar, name => if p.1 = name then some p.2 else cookieGet jar name

/-- `cookies.delete(name, options)`. -/
def cookieDelete : CookieJar → String → CookieJar
  | [], _ => []
  | p :: jar, name => if p.1 = name then cookieDelete jar name else p :: cookieDelete jar name

/-- `cookies.set(name, value, options)`. -/
def cookieSet (jar : CookieJar) (name value : String) : CookieJar :=
  (name, value) :: cookieDelete jar name

/-- The external primitives the cookie-embedded store composes, each closed
over the configured encryption key: `encryptCryptoJSAES` / `decryptCryptoJSAES`
(the symmetric cipher of crypto.ts, an external collaborator; a decryption
that throws is `none`) and `JSON.stringify` / `JSON.parse` (JS builtins; a
parse that throws, or yields no `SessionData`, is `none`). -/
structure CookiePrims where
  enc : String → String
  dec : String → Option String
  stringify : SessionData → String
  parse : String → Option SessionData

/-- `CookieStore.getSessionFromCookie`: read the payload cookie (absent or
empty string is falsy, hence no session); decrypt and parse, any failure
caught and turned into `null`. -/
def getSessionFromCookie (p : CookiePrims) (dataName : String)
    (jar : CookieJar) : Option SessionData :=
  match cookieGet jar dataName with
  | none => none
  | some s =>
    if s = "" then none
    else
      match p.dec s with
      | none => none
      | some plain => p.parse plain

/-- `CookieStore.persistSessionData` (and `CookieStore.createSession`, whose
body is identical): serialize, encrypt, write the payload cookie. -/
def csPersistSessionData (p : CookiePrims) (dataName : String)
    (jar : CookieJar) (d : SessionData) : CookieJar :=
  cookieSet jar dataName (p.enc (p.stringify d))

/-- `CookieStore.deleteSession`: clear the payload cookie. -/
def csDeleteSession (dataName : String) (jar : CookieJar) : CookieJar :=
  cookieDelete jar dataName

/-- One observable store or cookie-accessor operation performed during an
orchestrator call; the orchestrator functions return the sequence of these
events in execution order alongside the final state. -/
inductive Ev where
  | storeCreate : String → SessionData → Ev
  | storePersist : String → SessionData → Ev
  | storeDelete : String → Ev
  | cookieSet : String → String → Ev
  | cookieDelete : String → Ev
  | payloadSet : SessionData → Ev
  | payloadDelete : Ev
deriving DecidableEq

/-- Orchestrator configuration: `expireAfterSeconds` (default null) and the
transport cookie name (default "session"); the cookie get/set options do not
affect the modelled state. -/
structure Config where
  expireAfterSeconds : Option Int
  sessionCookieName : String

/-- `Session.createSession` on a keyed store: take the given `defaultData`
or build fresh default fields, mint the externally generated identifier and
store the data under it. Returns the new session, the updated store and the
events. -/
def createSessionKeyed (now : Int) (freshID : String)
    (expiration : Option Int) (dData : Option SessionData) (st : KeyedStore) :
    Session × KeyedStore × List Ev :=
  let sessionData :=
    match dData with
    | some d => d
    | none => defaultData now expiration
  (⟨freshID, sessionData⟩, storeSet st freshID sessionData,
    [Ev.storeCreate freshID sessionData])

/-- `Session.createSession` on the cookie-embedded store: same data choice,
but no identifier is minted and no store write occurs. -/
def createSessionCookie (now : Int) (expiration : Option Int)
    (dData : Option SessionData) : Session :=
  match dData with
  | some d => ⟨"", d⟩
  | none => ⟨"", defaultData now expiration⟩

/-- `fetchSession` for a keyed store: read the identifier cookie (missing or
empty is falsy → null), load by id (missing → null), then either renew the
valid session or delete the expired one and synthesize a fresh session;
finally stamp `_accessed` and write the identifier cookie back. Returns the
fetched session (or none), final store, final jar, events. -/
def fetchSessionKeyed (now : Int) (freshID : String) (cfg : Config)
    (st : KeyedStore) (jar : CookieJar) :
    Option Session × KeyedStore × CookieJar × List Ev :=
  match cookieGet jar cfg.sessionCookieName with
  | none => (none, st, jar, [])
  | some sid =>
    if sid = "" then (none, st, jar, [])
    else
      match storeGet st sid with
      | none => (none, st, jar, [])
      | some sd =>
        let (session, st1, evs) :=
          if sessionValid now sd then
            (⟨sid, reupSession now cfg.expireAfterSeconds sd⟩, st,
              ([] : List Ev))
          else
            let st' := storeDelete st sid
            let (s, st'', evs') :=
              createSessionKeyed now freshID cfg.expireAfterSeconds none st'
            (s, st'', Ev.storeDelete sid :: evs')
        let s2 : Session :=
          ⟨session.sid, dataSet session.data "_accessed" (.str (isoOf now))⟩
        (some s2, st1, cookieSet jar cfg.sessionCookieName s2.sid,
          evs ++ [Ev.cookieSet cfg.sessionCookieName s2.sid])

/-- `fetchSession` for the cookie-embedded store: load the payload from the
cookie (none → null), renew a valid session or delete the payload cookie and
synthesize a fresh session; then stamp `_accessed` and — like the keyed
branch — write the identifier cookie, here with the session's empty `sid`. -/
def fetchSessionCookie (now : Int) (cfg : Config) (p : CookiePrims)
    (dataName : String) (jar : CookieJar) :
    Option Session × CookieJar × List Ev :=
  match getSessionFromCookie p dataName jar with
  | none => (none, jar, [])
  | some sd =>
    let (session, jar1, evs) :=
      if sessionValid now sd then
        (Session.mk "" (reupSession now cfg.expireAfterSeconds sd), jar,
          ([] : List Ev))
      else
        (createSessionCookie now cfg.expireAfterSeconds none,
          csDeleteSession dataName jar, [Ev.payloadDelete])
    let s2 : Session :=
      ⟨session.sid, dataSet session.data "_accessed" (.str (isoOf now))⟩
    (some s2, cookieSet jar1 cfg.sessionCookieName s2.sid,
      evs ++ [Ev.cookieSet cfg.sessionCookieName s2.sid])

/-- `storeState` for a keyed store: optionally rotate the identifier
(delete the old entry, re-create under the fresh identifier carrying the
current data, rewrite the transport cookie), then persist the session's
data, and — when `_delete` is set — remove the store entry and clear the
transport cookie. -/
def storeStateKeyed (now : Int) (freshID : String) (cfg : Config)
    (session : Option Session) (st : KeyedStore) (jar : CookieJar)
    (rotate_session_key : Bool) : KeyedStore × CookieJar × List Ev :=
  match session with
  | none => (st, jar, [])
  | some s0 =>
    let (s, st1, jar1, evs1) :=
      if rotate_session_key then
        let st' := storeDelete st s0.sid
        let (s', st'', evs') :=
          createSessionKeyed now freshID cfg.expireAfterSeconds
            (some s0.data) st'
        (s', st'', cookieSet jar cfg.sessionCookieName s'.sid,
          (Ev.storeDelete s0.sid :: evs') ++
            [Ev.cookieSet cfg.sessionCookieName s'.sid])
      else (s0, st, jar, [])
    let st2 := storeSet st1 s.sid s.data
    let evs2 := evs1 ++ [Ev.storePersist s.sid s.data]
    if s.data._delete then
      (storeDelete st2 s.sid, cookieDelete jar1 cfg.sessionCookieName,
        evs2 ++ [Ev.storeDelete s.sid, Ev.cookieDelete cfg.sessionCookieName])
    else (st2, jar1, evs2)

/-- `storeState` for the cookie-embedded store: the rotation guard
`rotate_session_key && !(store instanceof CookieStore)` is always false, so
no rotation happens; persist the payload cookie, and — when `_delete` is
set — clear the payload cookie (the identifier cookie is not touched on
this branch). -/
def storeStateCookie (p : CookiePrims) (dataName : String)
    (session : Option Session) (jar : CookieJar)
    (rotate_session_key : Bool) : CookieJar × List Ev :=
  match session with
  | none => (jar, [])
  | some s =>
    let _ := rotate_session_key
    let jar1 := csPersistSessionData p dataName jar s.data
    let evs := [Ev.payloadSet s.data]
    if s.data._delete then
      (csDeleteSession dataName jar1, evs ++ [Ev.payloadDelete])
    else (jar1, evs)

/-- Iterate `fetchSession` on a keyed store at a sequence of clock readings,
threading the store and the cookie jar through; collects each call's result. -/
def fetchIter (freshID : String) (cfg : Config) :
    List Int → KeyedStore → CookieJar →
    List (Option Session) × KeyedStore × CookieJar
  | [], st, jar => ([], st, jar)
  | t :: ts, st, jar =>
    let (r, st', jar', _) := fetchSessionKeyed t freshID cfg st jar
    let (rs, st'', jar'') := fetchIter freshID cfg ts st' jar'
    (r :: rs, st'', jar'')


/-! Basic lemmas about the mapping operations. -/

theorem storeGet_storeSet_self (st : KeyedStore) (sid : String)
    (d : SessionData) : storeGet (storeSet st sid d) sid = some d := by
  simp [storeGet, storeSet]

theorem storeGet_storeDelete_self (st : KeyedStore) (sid : String) :
    storeGet (storeDelete st sid) sid = none := by
  induction st with
  | nil => rfl
  | cons p st ih =>
    by_cases h : p.1 = sid <;> simp [storeDelete, storeGet, h, ih]

theorem storeGet_storeDelete_ne (st : KeyedStore) {sid sid' : String}
    (h : sid' ≠ sid) : storeGet (storeDelete st sid') sid = storeGet st sid := by
  induction st with
  | nil => rfl
  | cons p st ih =>
    by_cases hp : p.1 = sid'
    · have hq : ¬ p.1 = sid := by rw [hp]; exact h
      simp [storeDelete, storeGet, hp, hq, h, Ne.symm h, ih]
    · by_cases hq : p.1 = sid <;>
        simp [storeDelete, storeGet, hp, hq, h, Ne.symm h, ih]

theorem storeGet_storeSet_ne (st : KeyedStore) {sid sid' : String}
    (h : sid' ≠ sid) (d : SessionData) :
    storeGet (storeSet st sid' d) sid = storeGet st sid := by
  simp [storeGet, storeSet, h, Ne.symm h, storeGet_storeDelete_ne st h]

theorem cookieGet_cookieSet_self (jar : CookieJar) (n v : String) :
    cookieGet (cookieSet jar n v) n = some v := by
  simp [cookieGet, cookieSet]

theorem cookieGet_cookieDelete_self (jar : CookieJar) (n : String) :
    cookieGet (cookieDelete jar n) n = none := by
  induction jar with
  | nil => rfl
  | cons p jar ih =>
    by_cases h : p.1 = n <;> simp [cookieDelete, cookieGet, h, ih]

theorem objGet_objSet_self :
    ∀ (o : JsObj) (k : String) (v : JsValue), objGet (objSet o k v) k = v
  | .nil, k, v => by simp [objSet, objGet]
  | .cons k' v' r, k, v => by
    by_cases h : k' = k <;>
      simp [objSet, objGet, h, objGet_objSet_self r k v]

theorem objHas_objSet_self :
    ∀ (o : JsObj) (k : String) (v : JsValue), objHas (objSet o k v) k = true
  | .nil, k, v => by simp [objSet, objHas]
  | .cons k' v' r, k, v => by
    by_cases h : k' = k <;>
      simp [objSet, objHas, h, objHas_objSet_self r k v]

theorem objHas_objDelete_self :
    ∀ (o : JsObj) (k : String), objHas (objDelete o k) k = false
  | .nil, _ => rfl
  | .cons k' v' r, k => by
    by_cases h : k' = k <;>
      simp [objDelete, objHas, h, objHas_objDelete_self r k]

theorem objGet_objDelete_self :
    ∀ (o : JsObj) (k : String), objGet (objDelete o k) k = JsValue.undef
  | .nil, _ => rfl
  | .cons k' v' r, k => by
    by_cases h : k' = k <;>
      simp [objDelete, objGet, h, objGet_objDelete_self r k]

theorem dataSet_accessed (d : SessionData) (s : String) :
    dataSet d "_accessed" (.str s) = { d with _accessed := some s } := by
  simp [dataSet, isNullish]

/-! Claim C5. -/

/-- Concrete data for claim C5: the main mapping already holds `email`. -/
def dC5 : SessionData :=
  ⟨.nil, none, none, false, .cons "email" (.str "a") .nil⟩

/-- Claim C5 counterexample: the claim quantifies over every session and
key, but when the key is present in the main data mapping, `get` returns
the main value and does not return the freshly flashed value: after
`flash("email", "b")` on a session whose data maps `email` to `"a"`,
`get("email")` returns `"a"`, not `"b"`. -/
theorem c5_shadowed_key_counterexample :
    (dataGet (dataFlash dC5 "email" (.str "b")) "email").1 = JsValue.str "a" ∧
    (dataGet (dataFlash dC5 "email" (.str "b")) "email").1 ≠ JsValue.str "b" := by
  decide

/-- Claim C5 (amended): for every session and key `k` *not present in the
main data mapping*, `flash(k, v)` followed by `get(k)` returns `v`, and a
second `get(k)` on the resulting session data returns undefined — the flash
entry is consumed by exactly the first read. -/
theorem c5_flash_get_consume (d : SessionData) (k : String) (v : JsValue)
    (h : dataHasKey d k = false) :
    (dataGet (dataFlash d k v) k).1 = v ∧
    (dataGet (dataGet (dataFlash d k v) k).2 k).1 = JsValue.undef := by
  have h' : (((¬ k = "_flash" ∧ ¬ k = "_accessed") ∧ ¬ k = "_expire") ∧
      ¬ k = "_delete") ∧ objHas d.rest k = false := by
    simpa [dataHasKey] using h
  obtain ⟨⟨⟨⟨h1, h2⟩, h3⟩, h4⟩, h5⟩ := h'
  refine ⟨?_, ?_⟩ <;>
    simp [dataGet, dataFlash, dataHasKey, h1, h2, h3, h4, h5,
      objGet_objSet_self, objGet_objDelete_self]

/-- Witness for `c5_flash_get_consume` at a concrete input. -/
theorem c5_flash_get_consume_witness :
    dataHasKey ⟨.nil, none, none, false, .nil⟩ "msg" = false ∧
    ((dataGet (dataFlash ⟨.nil, none, none, false, .nil⟩ "msg" (.num 3)) "msg").1
        = JsValue.num 3 ∧
      (dataGet (dataGet (dataFlash ⟨.nil, none, none, false, .nil⟩ "msg" (.num 3))
          "msg").2 "msg").1 = JsValue.undef) :=
  ⟨by decide, c5_flash_get_consume ⟨.nil, none, none, false, .nil⟩ "msg" (.num 3)
    (by decide)⟩

/-! Claim C10. -/

/-- Claim C10: for a key `k` absent from the main mapping, after
`flash(k, undefined)` the `has(k)` check returns true even though `get(k)`
returns undefined; that `get(k)` consumes the flash entry, so `has(k)`
afterwards is false (given `k` was not otherwise flashed); and
`set(k, undefined)` instead removes `k` from the main mapping. -/
theorem c10_flash_undefined_presence (d : SessionData) (k : String)
    (hmain : dataHasKey d k = false) (hfl : objHas d._flash k = false) :
    dataHas (dataFlash d k .undef) k = true ∧
    (dataGet (dataFlash d k .undef) k).1 = JsValue.undef ∧
    dataHas (dataGet (dataFlash d k .undef) k).2 k = false ∧
    dataHasKey (dataSet d k .undef) k = false ∧
    dataHas (dataSet d k .undef) k = false := by
  have h' : (((¬ k = "_flash" ∧ ¬ k = "_accessed") ∧ ¬ k = "_expire") ∧
      ¬ k = "_delete") ∧ objHas d.rest k = false := by
    simpa [dataHasKey] using hmain
  obtain ⟨⟨⟨⟨h1, h2⟩, h3⟩, h4⟩, h5⟩ := h'
  refine ⟨?_, ?_, ?_, ?_, ?_⟩ <;>
    simp [dataHas, dataGet, dataFlash, dataSet, dataHasKey, isNullish,
      h1, h2, h3, h4, h5, hfl, objGet_objSet_self, objHas_objSet_self,
      objHas_objDelete_self, objGet_objDelete_self]

/-- Witness for `c10_flash_undefined_presence` at a concrete input. -/
theorem c10_flash_undefined_presence_witness :
    (dataHasKey ⟨.nil, none, none, false, .nil⟩ "n" = false ∧
      objHas (SessionData.mk .nil none none false .nil)._flash "n" = false) ∧
    (dataHas (dataFlash ⟨.nil, none, none, false, .nil⟩ "n" .undef) "n" = true ∧
      (dataGet (dataFlash ⟨.nil, none, none, false, .nil⟩ "n" .undef) "n").1
        = JsValue.undef ∧
      dataHas (dataGet (dataFlash ⟨.nil, none, none, false, .nil⟩ "n" .undef)
        "n").2 "n" = false ∧
      dataHasKey (dataSet ⟨.nil, none, none, false, .nil⟩ "n" .undef) "n" = false ∧
      dataHas (dataSet ⟨.nil, none, none, false, .nil⟩ "n" .undef) "n" = false) :=
  ⟨⟨by decide, by decide⟩,
    c10_flash_undefined_presence ⟨.nil, none, none, false, .nil⟩ "n"
      (by decide) (by decide)⟩

/-! Claim C1. -/

/-- Concrete data for claim C1: a session already marked for deletion. -/
def dC1 : SessionData :=
  ⟨.nil, none, none, true, .cons "email" (.str "a") .nil⟩

/-- Concrete configuration for claim C1. -/
def cfgC1 : Config :=
  ⟨none, "session"⟩

/-- Claim C1 counterexample: `storeState` calls `persistSessionData`
unconditionally *before* it inspects `_delete`, so a session with
`_delete == true` is written to the keyed store under its old identifier
during the call (the write is followed by the delete). The event trace of a
concrete `storeState` call on a `_delete` session contains the forbidden
`persistSessionData(oldSid, data)` write. -/
theorem c1_persist_before_delete_counterexample :
    dC1._delete = true ∧
    Ev.storePersist "A" dC1 ∈
      (storeStateKeyed 0 "F" cfgC1 (some ⟨"A", dC1⟩) [("A", dC1)]
        [("session", "A")] false).2.2 := by
  decide

/-- Claim C1 (amended): a session passed to `storeState` with
`_delete == true` is persisted under its old identifier and then deleted:
when the call completes, the keyed store holds no entry under the session's
old identifier and the transport cookie is cleared, and for the
cookie-embedded store the payload cookie is cleared. -/
theorem c1_delete_final_state (now : Int) (freshID : String) (cfg : Config)
    (s : Session) (st : KeyedStore) (jar : CookieJar) (p : CookiePrims)
    (dataName : String) (jar2 : CookieJar) (rot : Bool)
    (h : s.data._delete = true) :
    storeGet (storeStateKeyed now freshID cfg (some s) st jar false).1 s.sid
      = none ∧
    cookieGet (storeStateKeyed now freshID cfg (some s) st jar false).2.1
      cfg.sessionCookieName = none ∧
    cookieGet (storeStateCookie p dataName (some s) jar2 rot).1 dataName
      = none := by
  refine ⟨?_, ?_, ?_⟩
  · simp [storeStateKeyed, h, storeGet_storeDelete_self]
  · simp [storeStateKeyed, h, cookieGet_cookieDelete_self]
  · simp [storeStateCookie, csDeleteSession, csPersistSessionData, h,
      cookieGet_cookieDelete_self]

/-- Witness for `c1_delete_final_state` at a concrete input. -/
theorem c1_delete_final_state_witness :
    (Session.mk "A" dC1).data._delete = true ∧
    (storeGet (storeStateKeyed 0 "F" cfgC1 (some ⟨"A", dC1⟩) [("A", dC1)]
        [("session", "A")] false).1 "A" = none ∧
      cookieGet (storeStateKeyed 0 "F" cfgC1 (some ⟨"A", dC1⟩) [("A", dC1)]
        [("session", "A")] false).2.1 "session" = none ∧
      cookieGet (storeStateCookie ⟨fun s => s, fun s => some s,
          fun _ => "x", fun _ => none⟩ "session_data" (some ⟨"A", dC1⟩)
          [("session_data", "old")] false).1 "session_data" = none) :=
  ⟨by decide,
    c1_delete_final_state 0 "F" cfgC1 ⟨"A", dC1⟩ [("A", dC1)]
      [("session", "A")] ⟨fun s => s, fun s => some s, fun _ => "x",
        fun _ => none⟩ "session_data" [("session_data", "old")] false
      (by decide)⟩

/-! Claim C2. -/

/-- Claim C2: when `fetchSession` on a keyed store loads a session whose
`_expire` timestamp is in the past, it deletes the old identifier's entry
from the store and returns a session carrying the newly generated
identifier (distinct from the old one, by collision-resistance of the
external generator) with fresh default fields — `_flash` empty, `_delete`
false — and never the expired identifier's data. -/
theorem c2_expired_fetch_replaces (now : Int) (freshID : String)
    (cfg : Config) (st : KeyedStore) (jar : CookieJar) (sid : String)
    (sd : SessionData) (es : String) (t : Int)
    (hjar : cookieGet jar cfg.sessionCookieName = some sid)
    (hne : sid ≠ "")
    (hst : storeGet st sid = some sd)
    (hexp : sd._expire = some es)
    (ht : getTime es = some t)
    (hpast : t ≤ now)
    (hfresh : freshID ≠ sid) :
    (fetchSessionKeyed now freshID cfg st jar).1 =
      some ⟨freshID, dataSet (defaultData now cfg.expireAfterSeconds)
        "_accessed" (.str (isoOf now))⟩ ∧
    (dataSet (defaultData now cfg.expireAfterSeconds) "_accessed"
        (.str (isoOf now)))._flash = .nil ∧
    (dataSet (defaultData now cfg.expireAfterSeconds) "_accessed"
        (.str (isoOf now)))._delete = false ∧
    storeGet (fetchSessionKeyed now freshID cfg st jar).2.1 sid = none := by
  have hval : sessionValid now sd = false := by
    simp [sessionValid, hexp, ht]
    omega
  refine ⟨?_, ?_, ?_, ?_⟩
  · simp [fetchSessionKeyed, hjar, hne, hst, hval, createSessionKeyed]
  · simp [dataSet_accessed, defaultData]
  · simp [dataSet_accessed, defaultData]
  · simp [fetchSessionKeyed, hjar, hne, hst, hval, createSessionKeyed,
      storeGet_storeSet_ne _ hfresh, storeGet_storeDelete_self]

/-- Witness for `c2_expired_fetch_replaces` at a concrete input: a session
stored under "A" expired at time 5, fetched at time 10 with fresh id "B". -/
theorem c2_expired_fetch_replaces_witness :
    (cookieGet [("session", "A")] (Config.mk none "session").sessionCookieName
        = some "A" ∧
      "A" ≠ "" ∧
      storeGet [("A", SessionData.mk .nil none (some "5") false .nil)] "A"
        = some ⟨.nil, none, some "5", false, .nil⟩ ∧
      (SessionData.mk .nil none (some "5") false .nil)._expire = some "5" ∧
      getTime "5" = some 5 ∧
      (5 : Int) ≤ 10 ∧
      "B" ≠ "A") ∧
    ((fetchSessionKeyed 10 "B" ⟨none, "session"⟩
        [("A", ⟨.nil, none, some "5", false, .nil⟩)] [("session", "A")]).1 =
      some ⟨"B", dataSet (defaultData 10 none) "_accessed"
        (.str (isoOf 10))⟩ ∧
      (dataSet (defaultData 10 none) "_accessed" (.str (isoOf 10)))._flash
        = .nil ∧
      (dataSet (defaultData 10 none) "_accessed" (.str (isoOf 10)))._delete
        = false ∧
      storeGet (fetchSessionKeyed 10 "B" ⟨none, "session"⟩
        [("A", ⟨.nil, none, some "5", false, .nil⟩)]
        [("session", "A")]).2.1 "A" = none) :=
  ⟨⟨by decide, by decide, by decide, by decide, by decide, by decide,
      by decide⟩,
    c2_expired_fetch_replaces 10 "B" ⟨none, "session"⟩
      [("A", ⟨.nil, none, some "5", false, .nil⟩)] [("session", "A")]
      "A" ⟨.nil, none, some "5", false, .nil⟩ "5" 5
      (by decide) (by decide) (by decide) (by decide) (by decide)
      (by decide) (by decide)⟩

/-! Claim C3. -/

/-- Concrete primitives for claim C3: decryption always fails. -/
def pC3 : CookiePrims :=
  ⟨fun s => s, fun _ => none, fun _ => "x", fun _ => none⟩

/-- Claim C3 counterexample: with the payload cookie present but
undecryptable, `getSessionFromCookie` yields no session and `fetchSession`
returns null to the caller — it does *not* create and return a fresh
session as the claim states. -/
theorem c3_returns_null_counterexample :
    cookieGet [("session_data", "garbage")] "session_data" = some "garbage" ∧
    pC3.dec "garbage" = none ∧
    (fetchSessionCookie 0 ⟨none, "session"⟩ pC3 "session_data"
      [("session_data", "garbage")]).1 = none := by
  refine ⟨by decide, rfl, by decide⟩

/-- Claim C3 (amended): for a cookie-embedded store, when the payload
cookie is present but its decryption or JSON parsing fails, `fetchSession`
treats it as "no session": it neither throws nor returns corrupted data,
it returns null to the caller, leaving the cookies untouched; creating a
fresh session is left to the caller. -/
theorem c3_failure_yields_null (now : Int) (cfg : Config) (p : CookiePrims)
    (dataName : String) (jar : CookieJar) (s : String)
    (hjar : cookieGet jar dataName = some s)
    (hne : s ≠ "")
    (hfail : p.dec s = none ∨ ∃ plain, p.dec s = some plain ∧
      p.parse plain = none) :
    fetchSessionCookie now cfg p dataName jar = (none, jar, []) := by
  have hget : getSessionFromCookie p dataName jar = none := by
    rcases hfail with hdec | ⟨plain, hdec, hparse⟩
    · simp [getSessionFromCookie, hjar, hne, hdec]
    · simp [getSessionFromCookie, hjar, hne, hdec, hparse]
  simp [fetchSessionCookie, hget]

/-- Witness for `c3_failure_yields_null` at a concrete input. -/
theorem c3_failure_yields_null_witness :
    (cookieGet [("session_data", "garbage")] "session_data" = some "garbage" ∧
      "garbage" ≠ "" ∧
      (pC3.dec "garbage" = none ∨ ∃ plain, pC3.dec "garbage" = some plain ∧
        pC3.parse plain = none)) ∧
    fetchSessionCookie 3 ⟨none, "session"⟩ pC3 "session_data"
      [("session_data", "garbage")] =
      (none, [("session_data", "garbage")], []) :=
  ⟨⟨by decide, by decide, Or.inl rfl⟩,
    c3_failure_yields_null 3 ⟨none, "session"⟩ pC3 "session_data"
      [("session_data", "garbage")] "garbage" (by decide) (by decide)
      (Or.inl rfl)⟩

/-! Claim C4. -/

/-- Claim C4 counterexample: with `expireAfterSeconds = 0` — an expiry
window that *is* configured — a successful fetch leaves `_expire` null
instead of renewing it to `now + 0`, because the code's JS truthiness check
`expiration ? ... : null` sends `0` down the null branch. -/
theorem c4_zero_window_counterexample :
    (Config.mk (some 0) "session").expireAfterSeconds = some 0 ∧
    sessionValid 7 ⟨.nil, none, none, false, .nil⟩ = true ∧
    ((fetchSessionKeyed 7 "B" ⟨some 0, "session"⟩
        [("A", ⟨.nil, none, none, false, .nil⟩)]
        [("session", "A")]).1.map fun s => s.data._expire) = some none ∧
    (some (none : Option String) : Option (Option String)) ≠
      some (some (isoOf (7 + 0 * 1000))) := by
  decide

/-- Claim C4 (amended): on every fetch that loads a session passing the
validity check — keyed or cookie-embedded — the returned session's
`_expire` is `reupExpire now expireAfterSeconds`, regardless of the loaded
`_expire` value: renewed to `now + expireAfterSeconds` seconds when a
*nonzero* expiry window is configured, and left null when expiry is
unconfigured or the configured window is zero. -/
theorem c4_sliding_renewal (now : Int) (freshID : String) (cfg : Config)
    (st : KeyedStore) (jar : CookieJar) (sid : String) (sd : SessionData)
    (hjar : cookieGet jar cfg.sessionCookieName = some sid)
    (hne : sid ≠ "")
    (hst : storeGet st sid = some sd)
    (hval : sessionValid now sd = true)
    (p : CookiePrims) (dataName : String) (jar2 : CookieJar)
    (sd2 : SessionData)
    (hget : getSessionFromCookie p dataName jar2 = some sd2)
    (hval2 : sessionValid now sd2 = true) :
    ((fetchSessionKeyed now freshID cfg st jar).1.map fun s =>
        s.data._expire) = some (reupExpire now cfg.expireAfterSeconds) ∧
    ((fetchSessionCookie now cfg p dataName jar2).1.map fun s =>
        s.data._expire) = some (reupExpire now cfg.expireAfterSeconds) ∧
    (∀ n : Int, cfg.expireAfterSeconds = some n → n ≠ 0 →
      reupExpire now cfg.expireAfterSeconds = some (isoOf (now + n * 1000))) ∧
    (cfg.expireAfterSeconds = none →
      reupExpire now cfg.expireAfterSeconds = none) ∧
    (cfg.expireAfterSeconds = some 0 →
      reupExpire now cfg.expireAfterSeconds = none) := by
  refine ⟨?_, ?_, ?_, ?_, ?_⟩
  · simp [fetchSessionKeyed, hjar, hne, hst, hval, reupSession,
      dataSet_accessed]
  · simp [fetchSessionCookie, hget, hval2, reupSession, dataSet_accessed]
  · intro n hn hnz
    simp [reupExpire, hn, hnz]
  · intro hn
    simp [reupExpire, hn]
  · intro hn
    simp [reupExpire, hn]

/-- Concrete primitives for the claim C4 witness: identity decryption and a
parser that always yields the default payload. -/
def pC4 : CookiePrims :=
  ⟨fun s => s, fun s => some s, fun _ => "x",
    fun _ => some ⟨.nil, none, none, false, .nil⟩⟩

/-- Witness for `c4_sliding_renewal` at a concrete input. -/
theorem c4_sliding_renewal_witness :
    (cookieGet [("session", "A")] (Config.mk (some 9) "session").sessionCookieName
        = some "A" ∧
      "A" ≠ "" ∧
      storeGet [("A", SessionData.mk .nil none none false .nil)] "A"
        = some ⟨.nil, none, none, false, .nil⟩ ∧
      sessionValid 7 ⟨.nil, none, none, false, .nil⟩ = true ∧
      getSessionFromCookie pC4 "session_data" [("session_data", "D")]
        = some ⟨.nil, none, none, false, .nil⟩ ∧
      sessionValid 7 ⟨.nil, none, none, false, .nil⟩ = true) ∧
    ((fetchSessionKeyed 7 "B" ⟨some 9, "session"⟩
        [("A", ⟨.nil, none, none, false, .nil⟩)]
        [("session", "A")]).1.map fun s => s.data._expire)
      = some (reupExpire 7 (some 9)) :=
  ⟨⟨by decide, by decide, by decide, by decide, by decide, by decide⟩,
    (c4_sliding_renewal 7 "B" ⟨some 9, "session"⟩
      [("A", ⟨.nil, none, none, false, .nil⟩)] [("session", "A")] "A"
      ⟨.nil, none, none, false, .nil⟩ (by decide) (by decide) (by decide)
      (by decide) pC4 "session_data" [("session_data", "D")]
      ⟨.nil, none, none, false, .nil⟩ (by decide) (by decide)).1⟩

/-! Claim C6. -/

/-- Claim C6: for the cookie-embedded store, `persistSessionData` followed
by `getSessionFromCookie` on the same cookie accessor returns the original
`SessionData`. The serialization and encryption primitives are external
(JS builtins and crypto.ts); the claim's assumption that decryption inverts
encryption for the configured key is the hypothesis `hdec`, the JSON
round-trip on data built from nested string-keyed mappings, strings,
numbers and booleans is the hypothesis `hparse`, and `henc` records that
the cipher never produces the empty string (which the falsy-cookie check
would treat as no session). -/
theorem c6_cookie_roundtrip (p : CookiePrims) (dataName : String)
    (jar : CookieJar) (d : SessionData)
    (hdec : p.dec (p.enc (p.stringify d)) = some (p.stringify d))
    (hparse : p.parse (p.stringify d) = some d)
    (henc : p.enc (p.stringify d) ≠ "") :
    getSessionFromCookie p dataName (csPersistSessionData p dataName jar d)
      = some d := by
  simp [getSessionFromCookie, csPersistSessionData,
    cookieGet_cookieSet_self, henc, hdec, hparse]

/-- Concrete data for the claim C6 witness: a nested payload with a string,
a number and a boolean. -/
def dC6 : SessionData :=
  ⟨.cons "note" (.str "once") .nil, some "3", none, false,
    .cons "user" (.obj (.cons "name" (.str "ada")
      (.cons "age" (.num 36) (.cons "admin" (.jsBool true) .nil)))) .nil⟩

/-- Concrete primitives for the claim C6 witness: a prefix cipher and a
parser that inverts `stringify` at `dC6`. -/
def pC6 : CookiePrims :=
  ⟨fun s => "E" ++ s, fun s => if s = "ES" then some "S" else none,
    fun _ => "S", fun s => if s = "S" then some dC6 else none⟩

/-- Witness for `c6_cookie_roundtrip` at a concrete input. -/
theorem c6_cookie_roundtrip_witness :
    (pC6.dec (pC6.enc (pC6.stringify dC6)) = some (pC6.stringify dC6) ∧
      pC6.parse (pC6.stringify dC6) = some dC6 ∧
      pC6.enc (pC6.stringify dC6) ≠ "") ∧
    getSessionFromCookie pC6 "session_data"
      (csPersistSessionData pC6 "session_data" [("other", "z")] dC6)
      = some dC6 :=
  ⟨⟨by decide, by decide, by decide⟩,
    c6_cookie_roundtrip pC6 "session_data" [("other", "z")] dC6
      (by decide) (by decide) (by decide)⟩

/-! Claim C7. -/

/-- Claim C7: on a keyed store, `storeState` with `rotateKey = true`
deletes the old identifier's entry, stores the session's current data —
unchanged, all fields carried over — under the newly minted identifier
(distinct from the old one, by collision-resistance of the external
generator), and rewrites the transport cookie to the new identifier; on a
cookie-embedded store `rotateKey = true` has the same effect as
`rotateKey = false`. Stated for a session not marked `_delete`, which would
additionally erase the rotated entry at the end of the call. -/
theorem c7_rotate_keyed (now : Int) (freshID : String) (cfg : Config)
    (s : Session) (st : KeyedStore) (jar : CookieJar)
    (hdel : s.data._delete = false)
    (hfresh : freshID ≠ s.sid) :
    storeGet (storeStateKeyed now freshID cfg (some s) st jar true).1 s.sid
      = none ∧
    storeGet (storeStateKeyed now freshID cfg (some s) st jar true).1 freshID
      = some s.data ∧
    cookieGet (storeStateKeyed now freshID cfg (some s) st jar true).2.1
      cfg.sessionCookieName = some freshID ∧
    (∀ (p : CookiePrims) (dataName : String) (s2 : Option Session)
      (jar2 : CookieJar),
      storeStateCookie p dataName s2 jar2 true =
        storeStateCookie p dataName s2 jar2 false) := by
  refine ⟨?_, ?_, ?_, ?_⟩
  · simp [storeStateKeyed, createSessionKeyed, hdel, storeSet,
      storeGet_storeDelete_ne _ hfresh, storeGet_storeDelete_self,
      storeGet, hfresh, Ne.symm hfresh]
  · simp [storeStateKeyed, createSessionKeyed, hdel,
      storeGet_storeSet_self]
  · simp [storeStateKeyed, createSessionKeyed, hdel,
      cookieGet_cookieSet_self]
  · intro p dataName s2 jar2
    cases s2 <;> rfl

/-- Witness for `c7_rotate_keyed` at a concrete input: session "A" with an
email entry, rotated to fresh id "B". -/
theorem c7_rotate_keyed_witness :
    ((Session.mk "A" ⟨.nil, none, none, false,
        .cons "email" (.str "a") .nil⟩).data._delete = false ∧
      "B" ≠ "A") ∧
    (storeGet (storeStateKeyed 0 "B" ⟨none, "session"⟩
        (some ⟨"A", ⟨.nil, none, none, false, .cons "email" (.str "a") .nil⟩⟩)
        [("A", ⟨.nil, none, none, false, .cons "email" (.str "a") .nil⟩)]
        [("session", "A")] true).1 "A" = none ∧
      storeGet (storeStateKeyed 0 "B" ⟨none, "session"⟩
        (some ⟨"A", ⟨.nil, none, none, false, .cons "email" (.str "a") .nil⟩⟩)
        [("A", ⟨.nil, none, none, false, .cons "email" (.str "a") .nil⟩)]
        [("session", "A")] true).1 "B"
        = some ⟨.nil, none, none, false, .cons "email" (.str "a") .nil⟩ ∧
      cookieGet (storeStateKeyed 0 "B" ⟨none, "session"⟩
        (some ⟨"A", ⟨.nil, none, none, false, .cons "email" (.str "a") .nil⟩⟩)
        [("A", ⟨.nil, none, none, false, .cons "email" (.str "a") .nil⟩)]
        [("session", "A")] true).2.1 "session" = some "B") :=
  ⟨⟨by decide, by decide⟩, by
    have h := c7_rotate_keyed 0 "B" ⟨none, "session"⟩
      ⟨"A", ⟨.nil, none, none, false, .cons "email" (.str "a") .nil⟩⟩
      [("A", ⟨.nil, none, none, false, .cons "email" (.str "a") .nil⟩)]
      [("session", "A")] (by decide) (by decide)
    exact ⟨h.1, h.2.1, h.2.2.1⟩⟩

/-! Claim C8. -/

/-- Helper: whenever `fetchSession` on a keyed store returns a session, the
call wrote the session's identifier into the transport cookie. -/
theorem fetchKeyed_writes_cookie (now : Int) (freshID : String)
    (cfg : Config) (st : KeyedStore) (jar : CookieJar) (s : Session)
    (h : (fetchSessionKeyed now freshID cfg st jar).1 = some s) :
    Ev.cookieSet cfg.sessionCookieName s.sid ∈
      (fetchSessionKeyed now freshID cfg st jar).2.2.2 ∧
    cookieGet (fetchSessionKeyed now freshID cfg st jar).2.2.1
      cfg.sessionCookieName = some s.sid := by
  rcases hjc : cookieGet jar cfg.sessionCookieName with _ | sid
  · simp [fetchSessionKeyed, hjc] at h
  · by_cases hsid : sid = ""
    · simp [fetchSessionKeyed, hjc, hsid] at h
    · rcases hsg : storeGet st sid with _ | sd
      · simp [fetchSessionKeyed, hjc, hsid, hsg] at h
      · by_cases hv : sessionValid now sd
        · have hfe : fetchSessionKeyed now freshID cfg st jar =
              (some ⟨sid, dataSet (reupSession now cfg.expireAfterSeconds sd)
                "_accessed" (.str (isoOf now))⟩, st,
                cookieSet jar cfg.sessionCookieName sid,
                [Ev.cookieSet cfg.sessionCookieName sid]) := by
            simp [fetchSessionKeyed, hjc, hsid, hsg, hv]
          rw [hfe] at h ⊢
          obtain rfl : _ = s := Option.some.inj h
          exact ⟨by simp, cookieGet_cookieSet_self _ _ _⟩
        · have hfe : fetchSessionKeyed now freshID cfg st jar =
              (some ⟨freshID, dataSet (defaultData now cfg.expireAfterSeconds)
                "_accessed" (.str (isoOf now))⟩,
                storeSet (storeDelete st sid) freshID
                  (defaultData now cfg.expireAfterSeconds),
                cookieSet jar cfg.sessionCookieName freshID,
                [Ev.storeDelete sid,
                  Ev.storeCreate freshID (defaultData now cfg.expireAfterSeconds),
                  Ev.cookieSet cfg.sessionCookieName freshID]) := by
            simp [fetchSessionKeyed, hjc, hsid, hsg, hv, createSessionKeyed]
          rw [hfe] at h ⊢
          obtain rfl : _ = s := Option.some.inj h
          exact ⟨by simp, cookieGet_cookieSet_self _ _ _⟩

/-- Helper: whenever `fetchSession` on the cookie-embedded store returns a
session, the session's identifier is the empty string and the call still
wrote it into the transport cookie. -/
theorem fetchCookie_writes_cookie (now : Int) (cfg : Config)
    (p : CookiePrims) (dataName : String) (jar : CookieJar) (s : Session)
    (h : (fetchSessionCookie now cfg p dataName jar).1 = some s) :
    s.sid = "" ∧
    Ev.cookieSet cfg.sessionCookieName "" ∈
      (fetchSessionCookie now cfg p dataName jar).2.2 ∧
    cookieGet (fetchSessionCookie now cfg p dataName jar).2.1
      cfg.sessionCookieName = some "" := by
  rcases hg : getSessionFromCookie p dataName jar with _ | sd
  · simp [fetchSessionCookie, hg] at h
  · by_cases hv : sessionValid now sd
    · have hfe : fetchSessionCookie now cfg p dataName jar =
          (some ⟨"", dataSet (reupSession now cfg.expireAfterSeconds sd)
            "_accessed" (.str (isoOf now))⟩,
            cookieSet jar cfg.sessionCookieName "",
            [Ev.cookieSet cfg.sessionCookieName ""]) := by
        simp [fetchSessionCookie, hg, hv]
      rw [hfe] at h ⊢
      obtain rfl : _ = s := Option.some.inj h
      exact ⟨rfl, by simp, cookieGet_cookieSet_self _ _ _⟩
    · have hfe : fetchSessionCookie now cfg p dataName jar =
          (some ⟨"", dataSet (defaultData now cfg.expireAfterSeconds)
            "_accessed" (.str (isoOf now))⟩,
            cookieSet (csDeleteSession dataName jar) cfg.sessionCookieName "",
            [Ev.payloadDelete, Ev.cookieSet cfg.sessionCookieName ""]) := by
        simp [fetchSessionCookie, hg, hv, createSessionCookie]
      rw [hfe] at h ⊢
      obtain rfl : _ = s := Option.some.inj h
      exact ⟨rfl, by simp, cookieGet_cookieSet_self _ _ _⟩

/-- Concrete primitives for claim C8: identity decryption and a parser that
yields the default payload. -/
def pC8 : CookiePrims :=
  ⟨fun s => s, fun s => some s, fun _ => "x",
    fun _ => some ⟨.nil, none, none, false, .nil⟩⟩

/-- Claim C8 counterexample: on a cookie-embedded store `fetchSession` does
write the identifier cookie — the `cookies.set(sessionCookieName, session.sid)`
call sits after the store branch and runs unconditionally, so a jar that
had no "session" cookie ends the fetch with `"session" ↦ ""` and the trace
contains the write. -/
theorem c8_cookie_store_sets_sid_counterexample :
    cookieGet [("session_data", "D")] "session" = none ∧
    Ev.cookieSet "session" "" ∈
      (fetchSessionCookie 0 ⟨none, "session"⟩ pC8 "session_data"
        [("session_data", "D")]).2.2 ∧
    cookieGet (fetchSessionCookie 0 ⟨none, "session"⟩ pC8 "session_data"
      [("session_data", "D")]).2.1 "session" = some "" := by
  decide

/-- Claim C8 (amended): every `fetchSession` call that returns a session
writes the session's identifier into the named transport cookie for *both*
store kinds — for a keyed store the looked-up or freshly minted identifier,
for a cookie-embedded store the empty string. -/
theorem c8_sid_cookie_always_written (nowK : Int) (fidK : String)
    (cfgK : Config) (stK : KeyedStore) (jarK : CookieJar) (sK : Session)
    (hK : (fetchSessionKeyed nowK fidK cfgK stK jarK).1 = some sK)
    (nowC : Int) (cfgC : Config) (pC : CookiePrims) (dnC : String)
    (jarC : CookieJar) (sC : Session)
    (hC : (fetchSessionCookie nowC cfgC pC dnC jarC).1 = some sC) :
    Ev.cookieSet cfgK.sessionCookieName sK.sid ∈
      (fetchSessionKeyed nowK fidK cfgK stK jarK).2.2.2 ∧
    cookieGet (fetchSessionKeyed nowK fidK cfgK stK jarK).2.2.1
      cfgK.sessionCookieName = some sK.sid ∧
    sC.sid = "" ∧
    Ev.cookieSet cfgC.sessionCookieName "" ∈
      (fetchSessionCookie nowC cfgC pC dnC jarC).2.2 ∧
    cookieGet (fetchSessionCookie nowC cfgC pC dnC jarC).2.1
      cfgC.sessionCookieName = some "" := by
  obtain ⟨hk1, hk2⟩ := fetchKeyed_writes_cookie nowK fidK cfgK stK jarK sK hK
  obtain ⟨hc1, hc2, hc3⟩ :=
    fetchCookie_writes_cookie nowC cfgC pC dnC jarC sC hC
  exact ⟨hk1, hk2, hc1, hc2, hc3⟩

/-- Witness for `c8_sid_cookie_always_written` at concrete inputs. -/
theorem c8_sid_cookie_always_written_witness :
    ((fetchSessionKeyed 0 "B" ⟨none, "session"⟩
        [("A", ⟨.nil, none, none, false, .nil⟩)] [("session", "A")]).1 =
      some ⟨"A", dataSet (reupSession 0 none ⟨.nil, none, none, false, .nil⟩)
        "_accessed" (.str (isoOf 0))⟩ ∧
      (fetchSessionCookie 0 ⟨none, "session"⟩ pC8 "session_data"
        [("session_data", "D")]).1 =
      some ⟨"", dataSet (reupSession 0 none ⟨.nil, none, none, false, .nil⟩)
        "_accessed" (.str (isoOf 0))⟩) ∧
    (Ev.cookieSet "session" "A" ∈
      (fetchSessionKeyed 0 "B" ⟨none, "session"⟩
        [("A", ⟨.nil, none, none, false, .nil⟩)] [("session", "A")]).2.2.2 ∧
      cookieGet (fetchSessionKeyed 0 "B" ⟨none, "session"⟩
        [("A", ⟨.nil, none, none, false, .nil⟩)] [("session", "A")]).2.2.1
        "session" = some "A" ∧
      (Session.mk "" (dataSet (reupSession 0 none
        ⟨.nil, none, none, false, .nil⟩) "_accessed" (.str (isoOf 0)))).sid
        = "" ∧
      Ev.cookieSet "session" "" ∈
        (fetchSessionCookie 0 ⟨none, "session"⟩ pC8 "session_data"
          [("session_data", "D")]).2.2 ∧
      cookieGet (fetchSessionCookie 0 ⟨none, "session"⟩ pC8 "session_data"
        [("session_data", "D")]).2.1 "session" = some "") :=
  ⟨⟨by decide, by decide⟩,
    c8_sid_cookie_always_written 0 "B" ⟨none, "session"⟩
      [("A", ⟨.nil, none, none, false, .nil⟩)] [("session", "A")]
      ⟨"A", dataSet (reupSession 0 none ⟨.nil, none, none, false, .nil⟩)
        "_accessed" (.str (isoOf 0))⟩ (by decide)
      0 ⟨none, "session"⟩ pC8 "session_data" [("session_data", "D")]
      ⟨"", dataSet (reupSession 0 none ⟨.nil, none, none, false, .nil⟩)
        "_accessed" (.str (isoOf 0))⟩ (by decide)⟩

/-! Claim C9. -/

/-- Claim C9: a session whose `_expire` is null is never treated as expired
by `fetchSession`: the validity check passes at every clock reading, and any
sequence of repeated fetches — whatever the elapsed time between them —
returns the stored session (same identifier, its data renewed and
re-stamped) rather than replacing it with a new one, leaving the store
untouched. -/
theorem c9_null_expire_never_expires (freshID : String) (cfg : Config)
    (sid : String) (sd : SessionData) (st : KeyedStore)
    (hne : sid ≠ "")
    (hst : storeGet st sid = some sd)
    (hexp : sd._expire = none) :
    (∀ t : Int, sessionValid t sd = true) ∧
    ∀ (ts : List Int) (jar : CookieJar),
      cookieGet jar cfg.sessionCookieName = some sid →
      (fetchIter freshID cfg ts st jar).1 =
        ts.map (fun t => some ⟨sid,
          dataSet (reupSession t cfg.expireAfterSeconds sd) "_accessed"
            (.str (isoOf t))⟩) ∧
      (fetchIter freshID cfg ts st jar).2.1 = st := by
  constructor
  · intro t
    simp [sessionValid, hexp]
  · intro ts
    induction ts with
    | nil =>
      intro jar hjar
      simp [fetchIter]
    | cons t ts ih =>
      intro jar hjar
      have hval : sessionValid t sd = true := by simp [sessionValid, hexp]
      have hfe : fetchSessionKeyed t freshID cfg st jar =
          (some ⟨sid, dataSet (reupSession t cfg.expireAfterSeconds sd)
            "_accessed" (.str (isoOf t))⟩, st,
            cookieSet jar cfg.sessionCookieName sid,
            [Ev.cookieSet cfg.sessionCookieName sid]) := by
        simp [fetchSessionKeyed, hjar, hne, hst, hval]
      obtain ⟨ih1, ih2⟩ := ih (cookieSet jar cfg.sessionCookieName sid)
        (cookieGet_cookieSet_self _ _ _)
      simp [fetchIter, hfe, ih1, ih2]

/-- Witness for `c9_null_expire_never_expires` at a concrete input: two
fetches of the same stored null-expiry session, five billion milliseconds
apart. -/
theorem c9_null_expire_never_expires_witness :
    ("A" ≠ "" ∧
      storeGet [("A", SessionData.mk .nil none none false .nil)] "A"
        = some ⟨.nil, none, none, false, .nil⟩ ∧
      (SessionData.mk .nil none none false .nil)._expire = none ∧
      cookieGet [("session", "A")] (Config.mk none "session").sessionCookieName
        = some "A") ∧
    sessionValid 17 ⟨.nil, none, none, false, .nil⟩ = true ∧
    (fetchIter "B" ⟨none, "session"⟩ [1, 5000000000]
        [("A", ⟨.nil, none, none, false, .nil⟩)] [("session", "A")]).1 =
      [1, 5000000000].map (fun t => some ⟨"A",
        dataSet (reupSession t none ⟨.nil, none, none, false, .nil⟩)
          "_accessed" (.str (isoOf t))⟩) ∧
    (fetchIter "B" ⟨none, "session"⟩ [1, 5000000000]
        [("A", ⟨.nil, none, none, false, .nil⟩)] [("session", "A")]).2.1 =
      [("A", ⟨.nil, none, none, false, .nil⟩)] := by
  have h := c9_null_expire_never_expires "B" ⟨none, "session"⟩ "A"
    ⟨.nil, none, none, false, .nil⟩
    [("A", ⟨.nil, none, none, false, .nil⟩)]
    (by decide) (by decide) (by decide)
  obtain ⟨hv, hiter⟩ := h
  obtain ⟨h1, h2⟩ := hiter [1, 5000000000] [("session", "A")] (by decide)
  exact ⟨⟨by decide, by decide, by decide, by decide⟩, hv 17, h1, h2⟩
